import Mathlib

/- Verification of the OpenQASM 3 AST-to-circuit translator
   (src/openqasm/translator/translator.py) against its design
   specification.  The translator module is embedded shallowly below.
   Collaborator modules that are not among the provided sources (the
   context, expressions, identifiers, modifiers and exceptions modules)
   and the external circuit sink are modelled from the specification,
   as marked on each such definition. -/

namespace OpenQASM

/-- Modelled from the spec: the error taxonomy of section 7 (the
exceptions module of the repository is not among the provided sources).
The constructor recursionError stands for the interpreter recursion
limit, reachable only through self-dispatch of the base Statement tag. -/
inductive Err where
  | unsupportedFeature (tag : String)
  | unresolvedSymbol (name : String)
  | duplicateDeclaration (name : String)
  | invalidOperand
  | outOfBounds
  | recursionError
deriving DecidableEq, Repr

/-- Modelled from the spec: a resolved qubit target (section 3, Resolved
Target).  A target is either one qubit of a named register allocated in
the sink, or a positional qubit index inside a gate-definition sub-sink
(qubit parameters are bound to their zero-based indices). -/
inductive QubitTarget where
  | bit (reg : String) (idx : Nat)
  | pos (idx : Nat)
deriving DecidableEq, Repr

mutual
/-- Modelled from the spec: the values a symbol can be bound to
(section 3, Symbol Table Entry): classical values (integers, booleans),
free parameter placeholders, quantum registers (name and size),
built-in gate constructors from the external lookup table, and
user-defined gate constructors capturing a translated sub-circuit
(qubit count, global phase, instruction list) together with the ordered
list of free-parameter names. -/
inductive Value where
  | int (n : Int)
  | bool (b : Bool)
  | param (name : String)
  | reg (name : String) (size : Nat)
  | builtinCtor (name : String)
  | gateCtor (numQubits : Nat) (globalPhase : Int) (body : List Instr) (argNames : List String)

/-- Modelled from the spec: a gate instance as accumulated by the sink
(section 6).  A gate is a named built-in applied to argument values, a
gate obtained from a sub-circuit (qubit count, global phase, body), or
a modifier wrapping (inverse, integer power, control, negated control)
of another gate. -/
inductive Gate where
  | builtin (name : String) (args : List Value)
  | fromCircuit (numQubits : Nat) (globalPhase : Int) (body : List Instr)
  | inverse (g : Gate)
  | power (n : Int) (g : Gate)
  | control (n : Nat) (g : Gate)
  | negControl (n : Nat) (g : Gate)

/-- Modelled from the spec: one operation accumulated by the sink: a
gate bound to an ordered list of qubit targets, or a reset of one
target (section 6, capability surface). -/
inductive Instr where
  | app (g : Gate) (qargs : List QubitTarget)
  | reset (q : QubitTarget)
end

mutual
/-- Modelled from the spec: substitution of concrete values for free
parameter placeholders in a value, used when a gate-definition
constructor is called (section 4.1, QuantumGateDefinition). -/
def substValue (bs : List (String × Value)) : Value → Value
  | .param p =>
    match bs.find? (fun q => q.1 == p) with
    | some q => q.2
    | none => .param p
  | .int n => .int n
  | .bool b => .bool b
  | .reg n s => .reg n s
  | .builtinCtor n => .builtinCtor n
  | .gateCtor nq gp body argNames => .gateCtor nq gp body argNames

/-- Modelled from the spec: substitution of parameter placeholders
inside a gate. -/
def substGate (bs : List (String × Value)) : Gate → Gate
  | .builtin n args => .builtin n (substValues bs args)
  | .fromCircuit nq gp body => .fromCircuit nq gp (substInstrs bs body)
  | .inverse g => .inverse (substGate bs g)
  | .power n g => .power n (substGate bs g)
  | .control n g => .control n (substGate bs g)
  | .negControl n g => .negControl n (substGate bs g)

/-- Modelled from the spec: substitution of parameter placeholders
inside one instruction. -/
def substInstr (bs : List (String × Value)) : Instr → Instr
  | .app g qargs => .app (substGate bs g) qargs
  | .reset q => .reset q

/-- Modelled from the spec: substitution mapped over argument values. -/
def substValues (bs : List (String × Value)) : List Value → List Value
  | [] => []
  | v :: rest => substValue bs v :: substValues bs rest

/-- Modelled from the spec: substitution mapped over an instruction
list (the body of a captured sub-circuit). -/
def substInstrs (bs : List (String × Value)) : List Instr → List Instr
  | [] => []
  | i :: rest => substInstr bs i :: substInstrs bs rest
end

/-- Modelled from the spec: a symbol-table entry is either declared
without a value or defined with a value (section 3, Symbol Table
Entry). -/
inductive SymEntry where
  | declared
  | defined (v : Value)

/-- Modelled from the spec: the scoped symbol table (section 4.2); the
context module of the repository is not among the provided sources.
The innermost binding of a name is the first entry of the list. -/
structure OpenQASMContext where
  symbols : List (String × SymEntry)

/-- Modelled from the spec: the external name-to-constructor lookup
table for built-in gates (section 6, name resolution surface). -/
def builtin_gate_names : List String :=
  ["x", "y", "z", "h", "s", "t", "rx", "ry", "rz", "cx", "cz", "u"]

/-- Modelled from the spec: lookup (section 4.2): the innermost defined
binding wins; a declared-but-undefined binding fails as use before
define; names with no local binding fall through to the built-in gate
table; otherwise lookup fails with the unresolved-symbol error. -/
def OpenQASMContext.lookup (ctx : OpenQASMContext) (name : String) : Except Err Value :=
  match ctx.symbols.find? (fun p => p.1 == name) with
  | some (_, .defined v) => .ok v
  | some (_, .declared) => .error (.unresolvedSymbol name)
  | none =>
    if builtin_gate_names.contains name then .ok (.builtinCtor name)
    else .error (.unresolvedSymbol name)

/-- Modelled from the spec: define (section 4.2): binds a name to a
concrete value, overwriting a prior declared-but-undefined entry and
failing with the duplicate-declaration error on true redefinition. -/
def OpenQASMContext.add_symbol (ctx : OpenQASMContext) (name : String) (v : Value) :
    Except Err OpenQASMContext :=
  match ctx.symbols.find? (fun p => p.1 == name) with
  | some (_, .defined _) => .error (.duplicateDeclaration name)
  | _ => .ok ⟨(name, .defined v) :: ctx.symbols⟩

/-- Modelled from the spec: declare (section 4.2): binds a name as
declared-but-undefined, failing if the name is already defined. -/
def OpenQASMContext.declare_symbol (ctx : OpenQASMContext) (name : String) :
    Except Err OpenQASMContext :=
  match ctx.symbols.find? (fun p => p.1 == name) with
  | some (_, .defined _) => .error (.duplicateDeclaration name)
  | _ => .ok ⟨(name, .declared) :: ctx.symbols⟩

/-- The empty root context of a translation. -/
def OpenQASMContext.empty : OpenQASMContext := ⟨[]⟩

/-- The full copy taken on entry to a gate-definition body
(copy.deepcopy in the source).  On the pure embedding a deep copy is
the identity; isolation of the child scope is expressed by the
theorems below. -/
def deepcopy (ctx : OpenQASMContext) : OpenQASMContext := ctx

/-- Modelled from the spec: the circuit sink state (section 3): named
fixed-size registers, an append-only operation list, an accumulating
global phase scalar, and the number of qubits (sub-sinks for gate
definitions are created with a bare qubit count and no registers). -/
structure QuantumCircuit where
  numQubits : Nat
  registers : List (String × Nat)
  instructions : List Instr
  globalPhase : Int

/-- The empty sink created at the start of translate. -/
def QuantumCircuit.empty : QuantumCircuit := ⟨0, [], [], 0⟩

/-- Modelled from the spec: the sub-sink of a gate definition, sized to
the number of qubit parameters (section 4.1). -/
def QuantumCircuit.ofSize (n : Nat) : QuantumCircuit := ⟨n, [], [], 0⟩

/-- Modelled from the spec: allocate a named register of a given size
in the sink (section 6, capability surface). -/
def QuantumCircuit.add_register (c : QuantumCircuit) (name : String) (size : Nat) :
    QuantumCircuit :=
  { c with numQubits := c.numQubits + size, registers := c.registers ++ [(name, size)] }

/-- Expression AST nodes, as far as the translator and its claims
exercise them: literals, identifiers, unary minus and binary
arithmetic. -/
inductive Expr where
  | intLit (n : Int)
  | boolLit (b : Bool)
  | ident (name : String)
  | unaryMinus (e : Expr)
  | binaryAdd (lhs rhs : Expr)
  | binarySub (lhs rhs : Expr)
  | binaryMul (lhs rhs : Expr)
deriving DecidableEq, Repr

/-- Modelled from the spec: the expression evaluator (section 4.3); the
expressions module of the repository is not among the provided
sources.  Literals evaluate to themselves, identifiers through context
lookup, and arithmetic recursively, failing with the invalid-operand
error on operands that are not integers. -/
def compute_expression : Expr → OpenQASMContext → Except Err Value
  | .intLit n, _ => .ok (.int n)
  | .boolLit b, _ => .ok (.bool b)
  | .ident name, ctx => ctx.lookup name
  | .unaryMinus e, ctx =>
    match compute_expression e ctx with
    | .ok (.int n) => .ok (.int (-n))
    | .ok _ => .error .invalidOperand
    | .error err => .error err
  | .binaryAdd l r, ctx =>
    match compute_expression l ctx, compute_expression r ctx with
    | .ok (.int a), .ok (.int b) => .ok (.int (a + b))
    | .error err, _ => .error err
    | _, .error err => .error err
    | _, _ => .error .invalidOperand
  | .binarySub l r, ctx =>
    match compute_expression l ctx, compute_expression r ctx with
    | .ok (.int a), .ok (.int b) => .ok (.int (a - b))
    | .error err, _ => .error err
    | _, .error err => .error err
    | _, _ => .error .invalidOperand
  | .binaryMul l r, ctx =>
    match compute_expression l ctx, compute_expression r ctx with
    | .ok (.int a), .ok (.int b) => .ok (.int (a * b))
    | .error err, _ => .error err
    | _, .error err => .error err
    | _, _ => .error .invalidOperand

/-- A qubit or bit reference appearing as an operand: either a bare
identifier or an indexed subscript. -/
inductive IdRef where
  | id (name : String)
  | index (name : String) (i : Expr)
deriving DecidableEq, Repr

/-- Modelled from the spec: the identifier resolver (section 4.4); the
identifiers module of the repository is not among the provided
sources.  A bare identifier bound to a register resolves to the whole
register expanded to its ordered qubit sequence; inside a
gate-definition body a qubit parameter is bound to its positional
index and resolves to that single target; an indexed reference
resolves to a single qubit of a register, failing when the base name is
unbound or the index is out of the declared bounds. -/
def get_identifier (ref : IdRef) (ctx : OpenQASMContext) : Except Err (List QubitTarget) :=
  match ref with
  | .id name =>
    match ctx.lookup name with
    | .ok (.reg rname size) => .ok ((List.range size).map (fun i => .bit rname i))
    | .ok (.int i) => if 0 ≤ i then .ok [.pos i.toNat] else .error .invalidOperand
    | .ok _ => .error .invalidOperand
    | .error e => .error e
  | .index name e =>
    match ctx.lookup name with
    | .ok (.reg rname size) =>
      match compute_expression e ctx with
      | .ok (.int i) =>
        if 0 ≤ i ∧ i.toNat < size then .ok [.bit rname i.toNat] else .error .outOfBounds
      | .ok _ => .error .invalidOperand
      | .error err => .error err
    | .ok _ => .error .invalidOperand
    | .error err => .error err

/-- The gate modifier names of the AST. -/
inductive GateModifierName where
  | inv
  | pow
  | ctrl
  | negctrl
deriving DecidableEq, Repr

/-- A gate modifier AST node: a modifier name with an optional
argument expression. -/
structure QuantumGateModifier where
  modifier : GateModifierName
  argument : Option Expr
deriving DecidableEq, Repr

/-- Modelled from the spec: the modifier applier (section 4.5); the
modifiers module of the repository is not among the provided sources.
Each modifier wraps the input gate in a new gate value: inverse, an
integer power (the argument expression is required and must evaluate
to an integer), or a control or negated control (the optional argument
gives the positive number of control qubits, one by default). -/
def apply_modifier (g : Gate) (m : QuantumGateModifier) (ctx : OpenQASMContext) :
    Except Err Gate :=
  match m.modifier with
  | .inv => .ok (.inverse g)
  | .pow =>
    match m.argument with
    | none => .error .invalidOperand
    | some e =>
      match compute_expression e ctx with
      | .ok (.int n) => .ok (.power n g)
      | .ok _ => .error .invalidOperand
      | .error err => .error err
  | .ctrl =>
    match m.argument with
    | none => .ok (.control 1 g)
    | some e =>
      match compute_expression e ctx with
      | .ok (.int n) => if 0 < n then .ok (.control n.toNat g) else .error .invalidOperand
      | .ok _ => .error .invalidOperand
      | .error err => .error err
  | .negctrl =>
    match m.argument with
    | none => .ok (.negControl 1 g)
    | some e =>
      match compute_expression e ctx with
      | .ok (.int n) => if 0 < n then .ok (.negControl n.toNat g) else .error .invalidOperand
      | .ok _ => .error .invalidOperand
      | .error err => .error err

/-- Calling the value a gate name resolved to, with the evaluated
argument values (the call context.lookup(name)(*arguments) of the
source).  A built-in constructor yields the named gate; a
gate-definition constructor substitutes the argument values positionally
for the captured parameter names (to_gate with a parameter map in the
source, which indexes the captured name list and therefore fails when
more arguments than names are supplied); any other value is not
callable. -/
def callConstructor (v : Value) (args : List Value) : Except Err Gate :=
  match v with
  | .builtinCtor n => .ok (.builtin n args)
  | .gateCtor nq gp body argNames =>
    if argNames.length < args.length then .error .invalidOperand
    else .ok (.fromCircuit nq gp (substInstrs (argNames.zip args) body))
  | _ => .error .invalidOperand

/-- Statement AST nodes.  The seven variants with handlers carry the
fields the translator reads; baseStatement stands for a node whose
exact class is the Statement base class; unsupported carries the class
name of any other statement variant of the AST. -/
inductive Stmt where
  | qubitDecl (name : String) (designator : Option Expr)
  | constDecl (name : String) (init : Option Expr)
  | classicalDecl (type : String) (name : String) (init : Option Expr)
  | quantumReset (qubits : List IdRef)
  | quantumGate (modifiers : List QuantumGateModifier) (name : String)
      (arguments : List Expr) (qubits : List IdRef)
  | quantumGateDef (name : String) (argNames : List String)
      (qubitNames : List String) (body : List Stmt)
  | quantumPhase (quantum_gate_modifiers : List QuantumGateModifier)
      (argument : Expr) (qubits : List IdRef)
  | baseStatement
  | unsupported (tag : String)

/-- The variant tag of a statement node: the name of its Python class. -/
def Stmt.tag : Stmt → String
  | .qubitDecl _ _ => "QubitDeclaration"
  | .constDecl _ _ => "ConstantDeclaration"
  | .classicalDecl _ _ _ => "ClassicalDeclaration"
  | .quantumReset _ => "QuantumReset"
  | .quantumGate _ _ _ _ => "QuantumGate"
  | .quantumGateDef _ _ _ _ => "QuantumGateDefinition"
  | .quantumPhase _ _ _ => "QuantumPhase"
  | .baseStatement => "Statement"
  | .unsupported t => t

/-- The Python dict insertion step: replace the value of an existing
key in place, otherwise append the new key at the end. -/
def dictInsert (d : List (String × Nat)) (k : String) (v : Nat) : List (String × Nat) :=
  if d.any (fun p => p.1 == k) then d.map (fun p => if p.1 == k then (k, v) else p)
  else d ++ [(k, v)]

/-- The dict comprehension of the source building qubit-name to
zero-based positional index: iterate enumerate(qubit_names) inserting
name maps-to index into an initially empty dict. -/
def dictOfEnum (names : List String) : List (String × Nat) :=
  names.enum.foldl (fun d p => dictInsert d p.2 p.1) []

end OpenQASM

namespace OpenQASM.OpenQASM3Translator

/-- The result type of processing one statement: the sink and context
it leaves behind, or the error that aborted translation. -/
abbrev PResult := Except Err (QuantumCircuit × OpenQASMContext)

/-- Handler for QubitDeclaration nodes: resolve the declared size (one
if the designator is absent, else the designator evaluated in the
context, which must be a non-negative integer for the register
constructor), allocate a register of that size under the declared name
in the sink, and bind the name to the register in the context. -/
def _process_QubitDeclaration (name : String) (designator : Option Expr)
    (circuit : QuantumCircuit) (context : OpenQASMContext) : PResult :=
  match designator with
  | none =>
    match context.add_symbol name (.reg name 1) with
    | .ok ctx2 => .ok (circuit.add_register name 1, ctx2)
    | .error e => .error e
  | some e =>
    match compute_expression e context with
    | .ok (.int n) =>
      if 0 ≤ n then
        match context.add_symbol name (.reg name n.toNat) with
        | .ok ctx2 => .ok (circuit.add_register name n.toNat, ctx2)
        | .error err => .error err
      else .error .invalidOperand
    | .ok _ => .error .invalidOperand
    | .error err => .error err

/-- Handler for ConstantDeclaration nodes: with no initializer the name
is declared without a value; otherwise the initializer is evaluated and
the name bound to the result.  The sink is untouched. -/
def _process_ConstantDeclaration (name : String) (init : Option Expr)
    (circuit : QuantumCircuit) (context : OpenQASMContext) : PResult :=
  match init with
  | none =>
    match context.declare_symbol name with
    | .ok ctx2 => .ok (circuit, ctx2)
    | .error e => .error e
  | some e =>
    match compute_expression e context with
    | .ok v =>
      match context.add_symbol name v with
      | .ok ctx2 => .ok (circuit, ctx2)
      | .error err => .error err
    | .error err => .error err

set_option linter.unusedVariables false in
/-- Handler for ClassicalDeclaration nodes: the type annotation is read
and not used; the binding discipline is that of ConstantDeclaration. -/
def _process_ClassicalDeclaration (type_ : String) (name : String) (init : Option Expr)
    (circuit : QuantumCircuit) (context : OpenQASMContext) : PResult :=
  match init with
  | none =>
    match context.declare_symbol name with
    | .ok ctx2 => .ok (circuit, ctx2)
    | .error e => .error e
  | some e =>
    match compute_expression e context with
    | .ok v =>
      match context.add_symbol name v with
      | .ok ctx2 => .ok (circuit, ctx2)
      | .error err => .error err
    | .error err => .error err

/-- Handler for QuantumReset nodes: resolve each referenced operand in
order and append a reset per resolved target. -/
def _process_QuantumReset (qubits : List IdRef)
    (circuit : QuantumCircuit) (context : OpenQASMContext) : PResult :=
  let step : QuantumCircuit → IdRef → Except Err QuantumCircuit := fun c q =>
    match get_identifier q context with
    | .ok ts =>
      .ok { c with instructions := c.instructions ++ ts.map (fun t => Instr.reset t) }
    | .error e => .error e
  match qubits.foldlM step circuit with
  | .ok c2 => .ok (c2, context)
  | .error e => .error e

/-- Handler for QuantumGate nodes: evaluate the argument expressions in
order, resolve the gate name and call the resulting constructor with
the argument values, resolve all qubit operands, wrap the gate with
each listed modifier left to right, and append the final gate bound to
the flattened resolved qubits. -/
def _process_QuantumGate (modifiers : List QuantumGateModifier) (name : String)
    (arguments : List Expr) (qubits : List IdRef)
    (circuit : QuantumCircuit) (context : OpenQASMContext) : PResult :=
  match arguments.mapM (fun a => compute_expression a context) with
  | .error e => .error e
  | .ok argVals =>
    match context.lookup name with
    | .error e => .error e
    | .ok ctor =>
      match callConstructor ctor argVals with
      | .error e => .error e
      | .ok g0 =>
        match qubits.mapM (fun q => get_identifier q context) with
        | .error e => .error e
        | .ok qlists =>
          match modifiers.foldlM (fun g m => apply_modifier g m context) g0 with
          | .error e => .error e
          | .ok g =>
            .ok ({ circuit with
                    instructions := circuit.instructions ++ [.app g qlists.flatten] },
                 context)

/-- The loop processing a statement list in source order against one
sink and context, threading the context and stopping at the first
error.  It is the body loop of translate and, instantiated with the
processor for one fuel step less, the body loop of
the QuantumGateDefinition handler. -/
def processBodyWith (f : Stmt → QuantumCircuit → OpenQASMContext → PResult) :
    List Stmt → QuantumCircuit → OpenQASMContext → PResult
  | [], c, ctx => .ok (c, ctx)
  | s :: rest, c, ctx =>
    match f s c ctx with
    | .error e => .error e
    | .ok (c2, ctx2) => processBodyWith f rest c2 ctx2

/-- Handler for QuantumGateDefinition nodes, parameterized by the
processor used for the body statements: build the qubit-name to
positional-index dict, create the sub-sink sized to the number of
declared qubit names and a deep copy of the context, seed the copy
with the qubit indices and with one free parameter placeholder per
classical parameter name, translate every body statement into the
sub-sink under the copy, and finally register in the parent context,
under the declared gate name, the constructor capturing the sub-sink
and the ordered parameter names. -/
def _process_QuantumGateDefinition
    (f : Stmt → QuantumCircuit → OpenQASMContext → PResult)
    (name : String) (argNames : List String) (qubitNames : List String)
    (body : List Stmt)
    (circuit : QuantumCircuit) (context : OpenQASMContext) : PResult :=
  let qubit_indices := dictOfEnum qubitNames
  let gate_definition := QuantumCircuit.ofSize qubitNames.length
  match qubit_indices.foldlM
      (fun g p => g.add_symbol p.1 (.int (Int.ofNat p.2))) (deepcopy context) with
  | .error e => .error e
  | .ok gctx1 =>
    match argNames.foldlM (fun g an => g.add_symbol an (.param an)) gctx1 with
    | .error e => .error e
    | .ok gctx2 =>
      match processBodyWith f body gate_definition gctx2 with
      | .error e => .error e
      | .ok (gd, _) =>
        match context.add_symbol name
            (.gateCtor gd.numQubits gd.globalPhase gd.instructions argNames) with
        | .error e => .error e
        | .ok ctx2 => .ok (circuit, ctx2)

/-- Handler for QuantumPhase nodes: evaluate the phase, resolve and
flatten all qubit operands; with no resolved qubits add the phase to
the sink global phase, otherwise build the one-qubit phase gate, wrap
it with each listed modifier in order, and append it to the resolved
qubits. -/
def _process_QuantumPhase (quantum_gate_modifiers : List QuantumGateModifier)
    (argument : Expr) (qubits : List IdRef)
    (circuit : QuantumCircuit) (context : OpenQASMContext) : PResult :=
  match compute_expression argument context with
  | .error e => .error e
  | .ok (.int phase) =>
    match qubits.mapM (fun q => get_identifier q context) with
    | .error e => .error e
    | .ok qlists =>
      if qlists.flatten.isEmpty then
        .ok ({ circuit with globalPhase := circuit.globalPhase + phase }, context)
      else
        match quantum_gate_modifiers.foldlM
            (fun g m => apply_modifier g m context) (.fromCircuit 1 phase []) with
        | .error e => .error e
        | .ok phased_gate =>
          .ok ({ circuit with
                  instructions := circuit.instructions ++ [.app phased_gate qlists.flatten] },
               context)
  | .ok _ => .error .invalidOperand

/-- One dispatch step, parameterized by the processor used for nested
statement processing: route the node to the handler registered for its
variant tag; the Statement tag itself is registered (its handler is the
dispatcher), and a node of any other variant raises the
unsupported-feature error carrying the variant name. -/
def dispatchStep (f : Stmt → QuantumCircuit → OpenQASMContext → PResult)
    (statement : Stmt) (circuit : QuantumCircuit) (context : OpenQASMContext) : PResult :=
  match statement with
  | .qubitDecl n d => _process_QubitDeclaration n d circuit context
  | .constDecl n i => _process_ConstantDeclaration n i circuit context
  | .classicalDecl t n i => _process_ClassicalDeclaration t n i circuit context
  | .quantumReset qs => _process_QuantumReset qs circuit context
  | .quantumGate m n a q => _process_QuantumGate m n a q circuit context
  | .quantumGateDef n a qn b => _process_QuantumGateDefinition f n a qn b circuit context
  | .quantumPhase m a q => _process_QuantumPhase m a q circuit context
  | .baseStatement => f .baseStatement circuit context
  | .unsupported t => .error (.unsupportedFeature t)

/-- The dispatcher.  The fuel argument models the interpreter recursion
limit: each nested dispatch (a gate-definition body statement, or the
self-dispatch of the base Statement tag) runs with one step less, and
exhausted fuel is the recursion-limit error. -/
def _process_Statement : Nat → Stmt → QuantumCircuit → OpenQASMContext → PResult
  | 0 => fun _ _ _ => .error .recursionError
  | fuel + 1 => dispatchStep (_process_Statement fuel)

/-- Translate a program: create an empty sink and a root context, then
process every top-level statement in source order, returning the sink. -/
def translate (fuel : Nat) (statements : List Stmt) : Except Err QuantumCircuit :=
  match processBodyWith (_process_Statement fuel) statements
      QuantumCircuit.empty OpenQASMContext.empty with
  | .ok (circuit, _) => .ok circuit
  | .error e => .error e

/-- The function members of the translator class, in the alphabetical
order that inspect.getmembers returns them. -/
def translatorMethodNames : List String :=
  ["_process_ClassicalDeclaration", "_process_ConstantDeclaration",
   "_process_QuantumGate", "_process_QuantumGateDefinition",
   "_process_QuantumPhase", "_process_QuantumReset",
   "_process_QubitDeclaration", "_process_Statement",
   "supported_features", "translate"]

/-- The attributes of the translator class reachable by hasattr: its
function members and the processing-function name-piece constant. -/
def translatorAttributeNames : List String :=
  translatorMethodNames ++ ["NODE_PROCESSING_FUNCTIONS_PREFIX"]

/-- The supported-features query: the names of the function members
that start with the processing-function name piece, with that piece
stripped. -/
def supported_features : List String :=
  translatorMethodNames.filterMap (fun n =>
    if ("_process_").data.isPrefixOf n.data then some ⟨n.data.drop ("_process_").length⟩
    else none)

/-- Whether dispatch accepts a variant tag: the hasattr check of the
dispatcher, true exactly when the class has an attribute named by the
processing-function name piece followed by the tag. -/
def hasProcessingFunction (tag : String) : Bool :=
  translatorAttributeNames.contains (("_process_") ++ tag)

end OpenQASM.OpenQASM3Translator

namespace OpenQASM

open OpenQASM3Translator

/-- Inputs reused by the concrete witnesses: a context holding one
size-two register named q. -/
def wRegCtx : OpenQASMContext := ⟨[("q", .defined (.reg ("q") 2))]⟩

/-- A gate-definition body: an rx on qubit parameter a taking the
classical parameter theta, then a cx on qubit parameters a and b. -/
def wBody : List Stmt :=
  [.quantumGate [] "rx" [.ident ("theta")] [.id ("a")],
   .quantumGate [] "cx" [] [.id ("a"), .id ("b")]]

/-- The sub-circuit instruction list that translating wBody produces. -/
def wInstrs : List Instr :=
  [.app (.builtin ("rx") [.param ("theta")]) [.pos 0],
   .app (.builtin ("cx") []) [.pos 0, .pos 1]]

/-- The child context of the wBody definition after seeding qubit
indices and the parameter placeholder. -/
def wGctx2 : OpenQASMContext :=
  ⟨[("theta", .defined (.param ("theta"))), ("b", .defined (.int 1)),
    ("a", .defined (.int 0)), ("q", .defined (.reg ("q") 2))]⟩

/-- The parent context after registering the gate defined by wBody. -/
def wCtx1 : OpenQASMContext :=
  ⟨("mygate", .defined (.gateCtor 2 0 wInstrs ["theta"])) :: wRegCtx.symbols⟩

/-- Looking a name up right after add_symbol defined it yields the
added value. -/
theorem lookup_add_symbol_self {ctx ctx2 : OpenQASMContext} {k : String} {v : Value}
    (h : ctx.add_symbol k v = .ok ctx2) : ctx2.lookup k = .ok v := by
  unfold OpenQASMContext.add_symbol at h
  split at h
  · exact absurd h (by simp)
  · cases h
    simp [OpenQASMContext.lookup, List.find?]

/-- add_symbol leaves the lookup of every other name unchanged. -/
theorem lookup_add_symbol_other {ctx ctx2 : OpenQASMContext} {k n : String} {v : Value}
    (h : ctx.add_symbol k v = .ok ctx2) (hne : n ≠ k) :
    ctx2.lookup n = ctx.lookup n := by
  unfold OpenQASMContext.add_symbol at h
  split at h
  · exact absurd h (by simp)
  · cases h
    have hkn : (k == n) = false := beq_eq_false_iff_ne.mpr (Ne.symm hne)
    simp [OpenQASMContext.lookup, List.find?, hkn]

/-- A name resolvable before an add_symbol stays resolvable after it. -/
theorem lookup_ok_add_symbol {ctx ctx2 : OpenQASMContext} {k n : String} {v w : Value}
    (h : ctx.add_symbol k v = .ok ctx2) (hw : ctx.lookup n = .ok w) :
    ∃ w', ctx2.lookup n = .ok w' := by
  by_cases hnk : n = k
  · subst hnk
    exact ⟨v, lookup_add_symbol_self h⟩
  · exact ⟨w, by rw [lookup_add_symbol_other h hnk]; exact hw⟩

/-- A name resolvable before a whole fold of add_symbol calls stays
resolvable after it. -/
theorem lookup_ok_foldlM_add {α : Type} (key : α → String) (val : α → Value) :
    ∀ (L : List α) (g0 g1 : OpenQASMContext),
      L.foldlM (fun g a => g.add_symbol (key a) (val a)) g0 = .ok g1 →
      ∀ n w, g0.lookup n = .ok w → ∃ w', g1.lookup n = .ok w' := by
  intro L
  induction L with
  | nil =>
    intro g0 g1 h n w hw
    simp only [List.foldlM_nil] at h
    cases h
    exact ⟨w, hw⟩
  | cons a L ih =>
    intro g0 g1 h n w hw
    rw [List.foldlM_cons] at h
    cases hstep : g0.add_symbol (key a) (val a) with
    | error e => rw [hstep] at h; exact absurd h (by simp [Bind.bind, Except.bind])
    | ok g2 =>
      rw [hstep] at h
      simp only [Bind.bind, Except.bind] at h
      obtain ⟨w2, hw2⟩ := lookup_ok_add_symbol hstep hw
      exact ih g2 g1 h n w2 hw2

/-- Processing a concatenation of statement lists processes the first
list and, when it succeeds, continues with the second from the state it
left. -/
theorem processBodyWith_append (f : Stmt → QuantumCircuit → OpenQASMContext → PResult)
    (l1 l2 : List Stmt) (c : QuantumCircuit) (ctx : OpenQASMContext) :
    processBodyWith f (l1 ++ l2) c ctx =
      match processBodyWith f l1 c ctx with
      | .error e => .error e
      | .ok (c2, ctx2) => processBodyWith f l2 c2 ctx2 := by
  induction l1 generalizing c ctx with
  | nil => simp [processBodyWith]
  | cons s l1 ih =>
    simp only [List.cons_append, processBodyWith]
    cases f s c ctx with
    | error e => rfl
    | ok p => exact ih p.1 p.2

/-- Appending the processing-function name piece is injective in the
appended tag. -/
theorem processPieceAppendInj {a b : String}
    (h : ("_process_") ++ a = ("_process_") ++ b) : a = b := by
  have hd : ("_process_").data ++ a.data = ("_process_").data ++ b.data :=
    congrArg String.data h
  cases a with
  | mk la =>
    cases b with
    | mk lb => exact congrArg String.mk (List.append_cancel_left hd)

/-- Dispatch on a statement whose tag has no processing function yields
the unsupported-feature error carrying that tag. -/
theorem dispatch_unregistered_eq (fuel : Nat) (s : Stmt) (c : QuantumCircuit)
    (ctx : OpenQASMContext) (hf : hasProcessingFunction s.tag = false) :
    _process_Statement (fuel + 1) s c ctx = .error (.unsupportedFeature s.tag) := by
  cases s with
  | qubitDecl n d =>
    exact absurd hf (by decide : ¬ hasProcessingFunction ("QubitDeclaration") = false)
  | constDecl n i =>
    exact absurd hf (by decide : ¬ hasProcessingFunction ("ConstantDeclaration") = false)
  | classicalDecl t n i =>
    exact absurd hf (by decide : ¬ hasProcessingFunction ("ClassicalDeclaration") = false)
  | quantumReset qs =>
    exact absurd hf (by decide : ¬ hasProcessingFunction ("QuantumReset") = false)
  | quantumGate m n a q =>
    exact absurd hf (by decide : ¬ hasProcessingFunction ("QuantumGate") = false)
  | quantumGateDef n a qn b =>
    exact absurd hf (by decide : ¬ hasProcessingFunction ("QuantumGateDefinition") = false)
  | quantumPhase m a q =>
    exact absurd hf (by decide : ¬ hasProcessingFunction ("QuantumPhase") = false)
  | baseStatement =>
    exact absurd hf (by decide : ¬ hasProcessingFunction ("Statement") = false)
  | unsupported t => rfl

end OpenQASM

namespace OpenQASM

open OpenQASM3Translator

/-- Claim C8: ClassicalDeclaration and ConstantDeclaration have
identical binding behaviour: for the same identifier and the same
(possibly absent) initializer the two handlers perform the same context
updates, declaring the name without a value when the initializer is
absent and otherwise binding it to the evaluated initializer,
regardless of the type annotation, which has no effect. -/
theorem classical_matches_constant_declaration
    (type_ name : String) (init : Option Expr)
    (c : QuantumCircuit) (ctx : OpenQASMContext) :
    _process_ClassicalDeclaration type_ name init c ctx =
      _process_ConstantDeclaration name init c ctx ∧
    (∀ ctx2, init = none → ctx.declare_symbol name = .ok ctx2 →
       _process_ClassicalDeclaration type_ name init c ctx = .ok (c, ctx2)) ∧
    (∀ e v ctx2, init = some e → compute_expression e ctx = .ok v →
       ctx.add_symbol name v = .ok ctx2 →
       _process_ClassicalDeclaration type_ name init c ctx = .ok (c, ctx2)) := by
  refine ⟨rfl, ?_, ?_⟩
  · rintro ctx2 rfl hdecl
    simp [_process_ClassicalDeclaration, hdecl]
  · rintro e v ctx2 rfl he hadd
    simp [_process_ClassicalDeclaration, he, hadd]

/-- Claim C9: the supported-features list contains the tag Statement,
coming from the dispatcher itself, in addition to the seven per-variant
handler tags, and dispatch on a node of the base Statement class
re-enters the dispatcher itself. -/
theorem supported_features_contains_statement_tag :
    supported_features.contains ("Statement") = true ∧
    supported_features =
      ["ClassicalDeclaration", "ConstantDeclaration", "QuantumGate",
       "QuantumGateDefinition", "QuantumPhase", "QuantumReset",
       "QubitDeclaration", "Statement"] ∧
    ∀ (fuel : Nat) (c : QuantumCircuit) (ctx : OpenQASMContext),
      _process_Statement (fuel + 1) Stmt.baseStatement c ctx =
        _process_Statement fuel Stmt.baseStatement c ctx :=
  ⟨rfl, rfl, fun _ _ _ => rfl⟩

/-- Claim C2: dispatch raises the unsupported-feature error carrying
exactly the variant name of a node whose tag has no registered handler,
and for every node whose tag has a registered handler it invokes that
handler on the node, the sink and the context and returns its result. -/
theorem statement_dispatch_contract
    (fuel : Nat) (s : Stmt) (c : QuantumCircuit) (ctx : OpenQASMContext) :
    (hasProcessingFunction s.tag = false →
       _process_Statement (fuel + 1) s c ctx = .error (.unsupportedFeature s.tag)) ∧
    (∀ n d, s = .qubitDecl n d →
       _process_Statement (fuel + 1) s c ctx = _process_QubitDeclaration n d c ctx) ∧
    (∀ n i, s = .constDecl n i →
       _process_Statement (fuel + 1) s c ctx = _process_ConstantDeclaration n i c ctx) ∧
    (∀ t n i, s = .classicalDecl t n i →
       _process_Statement (fuel + 1) s c ctx = _process_ClassicalDeclaration t n i c ctx) ∧
    (∀ qs, s = .quantumReset qs →
       _process_Statement (fuel + 1) s c ctx = _process_QuantumReset qs c ctx) ∧
    (∀ m n a q, s = .quantumGate m n a q →
       _process_Statement (fuel + 1) s c ctx = _process_QuantumGate m n a q c ctx) ∧
    (∀ n a qn b, s = .quantumGateDef n a qn b →
       _process_Statement (fuel + 1) s c ctx =
         _process_QuantumGateDefinition (_process_Statement fuel) n a qn b c ctx) ∧
    (∀ m a q, s = .quantumPhase m a q →
       _process_Statement (fuel + 1) s c ctx = _process_QuantumPhase m a q c ctx) ∧
    (s = .baseStatement →
       _process_Statement (fuel + 1) s c ctx = _process_Statement fuel s c ctx) := by
  refine ⟨?_, ?_, ?_, ?_, ?_, ?_, ?_, ?_, ?_⟩
  · exact dispatch_unregistered_eq fuel s c ctx
  · rintro n d rfl; rfl
  · rintro n i rfl; rfl
  · rintro t n i rfl; rfl
  · rintro qs rfl; rfl
  · rintro m n a q rfl; rfl
  · rintro n a qn b rfl; rfl
  · rintro m a q rfl; rfl
  · rintro rfl; rfl

/-- Claim C3: the supported-features query returns exactly the variant
tags that dispatch accepts: every returned tag has a processing
function and every tag with a processing function is returned. -/
theorem supported_features_exactly_dispatchable :
    (∀ tag : String, tag ∈ supported_features ↔ hasProcessingFunction tag = true) ∧
    (∀ (s : Stmt) (fuel : Nat) (c : QuantumCircuit) (ctx : OpenQASMContext),
       hasProcessingFunction s.tag = false →
       _process_Statement (fuel + 1) s c ctx = .error (.unsupportedFeature s.tag)) := by
  refine ⟨?_, fun s fuel c ctx hf => dispatch_unregistered_eq fuel s c ctx hf⟩
  intro tag
  constructor
  · intro h
    rw [show supported_features =
        ["ClassicalDeclaration", "ConstantDeclaration", "QuantumGate",
         "QuantumGateDefinition", "QuantumPhase", "QuantumReset",
         "QubitDeclaration", "Statement"] from rfl] at h
    simp only [List.mem_cons, List.not_mem_nil, or_false] at h
    rcases h with rfl | rfl | rfl | rfl | rfl | rfl | rfl | rfl <;> decide
  · intro h
    unfold hasProcessingFunction at h
    rw [List.contains_iff_exists_mem_beq] at h
    obtain ⟨b, hb, hbeq⟩ := h
    have heq : (("_process_") ++ tag) = b := eq_of_beq hbeq
    simp only [translatorAttributeNames, translatorMethodNames, List.mem_append,
      List.mem_cons, List.not_mem_nil, or_false] at hb
    rcases hb with (rfl | rfl | rfl | rfl | rfl | rfl | rfl | rfl | rfl | rfl) | rfl
    · rw [processPieceAppendInj (show ("_process_") ++ tag =
        ("_process_") ++ ("ClassicalDeclaration") from heq)]
      decide
    · rw [processPieceAppendInj (show ("_process_") ++ tag =
        ("_process_") ++ ("ConstantDeclaration") from heq)]
      decide
    · rw [processPieceAppendInj (show ("_process_") ++ tag =
        ("_process_") ++ ("QuantumGate") from heq)]
      decide
    · rw [processPieceAppendInj (show ("_process_") ++ tag =
        ("_process_") ++ ("QuantumGateDefinition") from heq)]
      decide
    · rw [processPieceAppendInj (show ("_process_") ++ tag =
        ("_process_") ++ ("QuantumPhase") from heq)]
      decide
    · rw [processPieceAppendInj (show ("_process_") ++ tag =
        ("_process_") ++ ("QuantumReset") from heq)]
      decide
    · rw [processPieceAppendInj (show ("_process_") ++ tag =
        ("_process_") ++ ("QubitDeclaration") from heq)]
      decide
    · rw [processPieceAppendInj (show ("_process_") ++ tag =
        ("_process_") ++ ("Statement") from heq)]
      decide
    · have h2 : (some '_' : Option Char) = some 's' :=
        congrArg (fun u : String => u.data.head?) heq
      exact absurd h2 (by decide)
    · have h2 : (some '_' : Option Char) = some 't' :=
        congrArg (fun u : String => u.data.head?) heq
      exact absurd h2 (by decide)
    · have h2 : (some '_' : Option Char) = some 'N' :=
        congrArg (fun u : String => u.data.head?) heq
      exact absurd h2 (by decide)

end OpenQASM

namespace OpenQASM

open OpenQASM3Translator

/-- Claim C1: a QuantumPhase statement with an empty flattened list of
resolved qubit operands only adds the evaluated phase to the sink
global phase and appends no gate; with at least one resolved qubit it
appends exactly one gate, the one-qubit phase gate wrapped by each
listed modifier in order, to the resolved qubits, and leaves the global
phase unchanged. -/
theorem quantum_phase_global_or_local
    (mods : List QuantumGateModifier) (arg : Expr) (qubits : List IdRef)
    (c : QuantumCircuit) (ctx : OpenQASMContext) (phi : Int)
    (qlists : List (List QubitTarget))
    (hphi : compute_expression arg ctx = .ok (.int phi))
    (hq : qubits.mapM (fun q => get_identifier q ctx) = .ok qlists) :
    (qlists.flatten = [] →
       _process_QuantumPhase mods arg qubits c ctx =
         .ok ({ c with globalPhase := c.globalPhase + phi }, ctx)) ∧
    (∀ g, qlists.flatten ≠ [] →
       mods.foldlM (fun g m => apply_modifier g m ctx) (Gate.fromCircuit 1 phi []) = .ok g →
       _process_QuantumPhase mods arg qubits c ctx =
         .ok ({ c with instructions := c.instructions ++ [.app g qlists.flatten] }, ctx)) := by
  constructor
  · intro hempty
    unfold _process_QuantumPhase
    simp only [hphi, hq, hempty, List.isEmpty_nil, if_true]
  · intro g hne hfold
    have hemp : qlists.flatten.isEmpty = false := by
      cases hflat : qlists.flatten with
      | nil => exact absurd hflat hne
      | cons a l => rfl
    unfold _process_QuantumPhase
    simp only [hphi, hq, hemp, Bool.false_eq_true, if_false, hfold]

/-- Claim C6: a QubitDeclaration allocates in the sink exactly one new
register under the declared name, of size one when the designator is
absent and otherwise of the size the designator evaluates to in the
current context, and then binds the name to that register in the
context. -/
theorem qubit_declaration_allocates
    (name : String) (c : QuantumCircuit) (ctx : OpenQASMContext) :
    (∀ ctx2, ctx.add_symbol name (.reg name 1) = .ok ctx2 →
       _process_QubitDeclaration name none c ctx =
         .ok ({ c with numQubits := c.numQubits + 1,
                       registers := c.registers ++ [(name, 1)] }, ctx2) ∧
       ctx2.lookup name = .ok (.reg name 1)) ∧
    (∀ e n ctx2, compute_expression e ctx = .ok (.int n) → 0 ≤ n →
       ctx.add_symbol name (.reg name n.toNat) = .ok ctx2 →
       _process_QubitDeclaration name (some e) c ctx =
         .ok ({ c with numQubits := c.numQubits + n.toNat,
                       registers := c.registers ++ [(name, n.toNat)] }, ctx2) ∧
       ctx2.lookup name = .ok (.reg name n.toNat)) := by
  constructor
  · intro ctx2 hadd
    refine ⟨?_, lookup_add_symbol_self hadd⟩
    unfold _process_QubitDeclaration
    simp only [hadd]
    rfl
  · intro e n ctx2 he hn hadd
    refine ⟨?_, lookup_add_symbol_self hadd⟩
    unfold _process_QubitDeclaration
    simp only [he]
    rw [if_pos hn]
    simp only [hadd]
    rfl

/-- Claim C7: translate processes statements strictly in source order;
when processing one statement fails, the error propagates out
immediately, no later statement is processed, and the state entering
the failing statement is exactly the one accumulated by the statements
before it. -/
theorem translate_fail_fast
    (fuel : Nat) (pre : List Stmt) (s : Stmt) (post : List Stmt)
    (c0 c : QuantumCircuit) (ctx0 ctx : OpenQASMContext) (e : Err)
    (hpre : processBodyWith (_process_Statement fuel) pre c0 ctx0 = .ok (c, ctx))
    (herr : _process_Statement fuel s c ctx = .error e) :
    processBodyWith (_process_Statement fuel) (pre ++ s :: post) c0 ctx0 = .error e ∧
    (c0 = QuantumCircuit.empty → ctx0 = OpenQASMContext.empty →
       OpenQASM3Translator.translate fuel (pre ++ s :: post) = .error e) := by
  have h1 : processBodyWith (_process_Statement fuel) (pre ++ s :: post) c0 ctx0 =
      .error e := by
    rw [processBodyWith_append, hpre]
    unfold processBodyWith
    simp only [herr]
  refine ⟨h1, ?_⟩
  rintro rfl rfl
  unfold OpenQASM3Translator.translate
  simp only [h1]

end OpenQASM

namespace OpenQASM

open OpenQASM3Translator

/-- Claim C5: the body of a gate definition is translated in an
isolated copy of the enclosing context: every name resolvable in the
enclosing context before the definition stays resolvable in the seeded
child context the body runs under, and after the definition completes
the enclosing context resolves every name other than the gate name
exactly as before, so nothing declared inside the body leaks out. -/
theorem gate_definition_scope_isolation
    (f : Stmt → QuantumCircuit → OpenQASMContext → PResult)
    (gname : String) (argNames qubitNames : List String) (body : List Stmt)
    (c c1 : QuantumCircuit) (ctx gctx1 gctx2 ctx1 : OpenQASMContext)
    (h1 : (dictOfEnum qubitNames).foldlM
        (fun g p => g.add_symbol p.1 (.int (Int.ofNat p.2))) (deepcopy ctx) = .ok gctx1)
    (h2 : argNames.foldlM (fun g an => g.add_symbol an (.param an)) gctx1 = .ok gctx2)
    (hres : _process_QuantumGateDefinition f gname argNames qubitNames body c ctx =
      .ok (c1, ctx1)) :
    (∀ n w, ctx.lookup n = .ok w → ∃ w', gctx2.lookup n = .ok w') ∧
    (∀ n, n ≠ gname → ctx1.lookup n = ctx.lookup n) := by
  constructor
  · intro n w hw
    obtain ⟨w1, hw1⟩ := lookup_ok_foldlM_add (fun p => p.1)
      (fun p => .int (Int.ofNat p.2)) (dictOfEnum qubitNames) (deepcopy ctx) gctx1 h1 n w hw
    exact lookup_ok_foldlM_add (fun an => an) (fun an => .param an)
      argNames gctx1 gctx2 h2 n w1 hw1
  · intro n hn
    unfold _process_QuantumGateDefinition at hres
    simp only [h1, h2] at hres
    cases hbody : processBodyWith f body (QuantumCircuit.ofSize qubitNames.length) gctx2 with
    | error e2 => rw [hbody] at hres; cases hres
    | ok p =>
      obtain ⟨gd, gctx3⟩ := p
      rw [hbody] at hres
      simp only [] at hres
      cases hadd : ctx.add_symbol gname
          (.gateCtor gd.numQubits gd.globalPhase gd.instructions argNames) with
      | error e2 => rw [hadd] at hres; cases hres
      | ok ctx2 =>
        rw [hadd] at hres
        simp only [Except.ok.injEq, Prod.mk.injEq] at hres
        obtain ⟨-, rfl⟩ := hres
        exact lookup_add_symbol_other hadd hn

/-- Claim C10: gate-definition binding is atomic: the gate name is
registered in the enclosing context only after the whole body has been
translated; if translating the body fails, the handler fails with that
error and produces no binding, and on success the enclosing sink is
returned unchanged and the enclosing context gains exactly the one
gate binding. -/
theorem gate_definition_binding_atomic
    (f : Stmt → QuantumCircuit → OpenQASMContext → PResult)
    (gname : String) (argNames qubitNames : List String) (body : List Stmt)
    (c : QuantumCircuit) (ctx gctx1 gctx2 : OpenQASMContext)
    (h1 : (dictOfEnum qubitNames).foldlM
        (fun g p => g.add_symbol p.1 (.int (Int.ofNat p.2))) (deepcopy ctx) = .ok gctx1)
    (h2 : argNames.foldlM (fun g an => g.add_symbol an (.param an)) gctx1 = .ok gctx2) :
    (∀ e, processBodyWith f body (QuantumCircuit.ofSize qubitNames.length) gctx2 =
        .error e →
       _process_QuantumGateDefinition f gname argNames qubitNames body c ctx = .error e) ∧
    (∀ c1 ctx1, _process_QuantumGateDefinition f gname argNames qubitNames body c ctx =
        .ok (c1, ctx1) →
       c1 = c ∧ ∃ gv, ctx.add_symbol gname gv = .ok ctx1) := by
  constructor
  · intro e hbody
    unfold _process_QuantumGateDefinition
    simp only [h1, h2, hbody]
  · intro c1 ctx1 hres
    unfold _process_QuantumGateDefinition at hres
    simp only [h1, h2] at hres
    cases hbody : processBodyWith f body (QuantumCircuit.ofSize qubitNames.length) gctx2 with
    | error e2 => rw [hbody] at hres; cases hres
    | ok p =>
      obtain ⟨gd, gctx3⟩ := p
      rw [hbody] at hres
      simp only [] at hres
      cases hadd : ctx.add_symbol gname
          (.gateCtor gd.numQubits gd.globalPhase gd.instructions argNames) with
      | error e2 => rw [hadd] at hres; cases hres
      | ok ctx2 =>
        rw [hadd] at hres
        simp only [Except.ok.injEq, Prod.mk.injEq] at hres
        obtain ⟨rfl, rfl⟩ := hres
        exact ⟨rfl, ⟨.gateCtor gd.numQubits gd.globalPhase gd.instructions argNames, hadd⟩⟩

end OpenQASM

namespace OpenQASM

open OpenQASM3Translator

/-- Inserting a key no entry of the dict carries appends it at the
end. -/
theorem dictInsert_fresh {d : List (String × Nat)} {k : String} {v : Nat}
    (h : ∀ q ∈ d, q.1 ≠ k) : dictInsert d k v = d ++ [(k, v)] := by
  have hany : d.any (fun p => p.1 == k) = false := by
    rw [List.any_eq_false]
    intro p hp
    simpa using h p hp
  unfold dictInsert
  simp only [hany, Bool.false_eq_true, if_false]

/-- Folding dict insertion over enumerated pairs whose names are fresh
for the accumulator and mutually distinct appends the swapped pairs in
order. -/
theorem foldl_dictInsert_fresh :
    ∀ (L : List (Nat × String)) (acc : List (String × Nat)),
      (∀ p ∈ L, ∀ q ∈ acc, q.1 ≠ p.2) → (L.map (fun p => p.2)).Nodup →
      L.foldl (fun d p => dictInsert d p.2 p.1) acc = acc ++ L.map (fun p => (p.2, p.1)) := by
  intro L
  induction L with
  | nil =>
    intro acc h hn
    simp
  | cons p L ih =>
    intro acc h hn
    rw [List.map_cons] at hn
    have hn2 := List.nodup_cons.mp hn
    simp only [List.foldl_cons]
    rw [dictInsert_fresh (fun q hq => h p (List.mem_cons_self p L) q hq)]
    rw [ih (acc ++ [(p.2, p.1)]) ?_ hn2.2]
    · simp
    · intro r hr q hq
      rcases List.mem_append.mp hq with hq | hq
      · exact h r (List.mem_cons_of_mem p hr) q hq
      · have hq2 : q = (p.2, p.1) := by simpa using hq
        subst hq2
        intro hcontra
        have hmem : r.2 ∈ L.map (fun s => s.2) := List.mem_map_of_mem (fun s => s.2) hr
        rw [← hcontra] at hmem
        exact hn2.1 hmem

/-- With mutually distinct qubit parameter names, the dict built by the
gate-definition handler maps each name to its zero-based positional
index. -/
theorem dictOfEnum_of_nodup {names : List String} (h : names.Nodup) :
    dictOfEnum names = names.enum.map (fun p => (p.2, p.1)) := by
  unfold dictOfEnum
  rw [foldl_dictInsert_fresh names.enum []]
  · simp
  · intro p hp q hq
    exact absurd hq (List.not_mem_nil q)
  · have hsnd : names.enum.map (fun p => p.2) = names := List.enum_map_snd names
    rw [hsnd]
    exact h

end OpenQASM

namespace OpenQASM

open OpenQASM3Translator

/-- Claim C4: gate-definition round trip.  Defining a gate with
classical parameters and mutually distinct qubit parameters registers a
constructor for it; invoking the gate with concrete argument values and
concrete qubit operands appends to the outer sink exactly the gate
obtained from the definition sub-circuit with the argument values
substituted positionally, by parameter name order, for the free
placeholders, bound to the resolved call-site qubits; and the declared
qubit parameters are seeded with their zero-based positional
indices. -/
theorem gate_definition_roundtrip
    (f : Stmt → QuantumCircuit → OpenQASMContext → PResult)
    (gname : String) (argNames qubitNames : List String) (body : List Stmt)
    (callArgs : List Expr) (callQubits : List IdRef)
    (c : QuantumCircuit) (ctx gctx1 gctx2 ctx1 : OpenQASMContext)
    (gd : QuantumCircuit) (gctx3 : OpenQASMContext)
    (argVals : List Value) (qlists : List (List QubitTarget))
    (hnodup : qubitNames.Nodup)
    (h1 : (dictOfEnum qubitNames).foldlM
        (fun g p => g.add_symbol p.1 (.int (Int.ofNat p.2))) (deepcopy ctx) = .ok gctx1)
    (h2 : argNames.foldlM (fun g an => g.add_symbol an (.param an)) gctx1 = .ok gctx2)
    (h3 : processBodyWith f body (QuantumCircuit.ofSize qubitNames.length) gctx2 =
       .ok (gd, gctx3))
    (h4 : ctx.add_symbol gname
        (.gateCtor gd.numQubits gd.globalPhase gd.instructions argNames) = .ok ctx1)
    (h5 : callArgs.mapM (fun a => compute_expression a ctx1) = .ok argVals)
    (h6 : argVals.length ≤ argNames.length)
    (h7 : callQubits.mapM (fun q => get_identifier q ctx1) = .ok qlists) :
    _process_QuantumGateDefinition f gname argNames qubitNames body c ctx =
      .ok (c, ctx1) ∧
    (∀ c2, _process_QuantumGate [] gname callArgs callQubits c2 ctx1 =
       .ok ({ c2 with instructions := c2.instructions ++
               [.app (.fromCircuit gd.numQubits gd.globalPhase
                        (substInstrs (argNames.zip argVals) gd.instructions))
                  qlists.flatten] }, ctx1)) ∧
    dictOfEnum qubitNames = qubitNames.enum.map (fun p => (p.2, p.1)) := by
  refine ⟨?_, ?_, dictOfEnum_of_nodup hnodup⟩
  · unfold _process_QuantumGateDefinition
    simp only [h1, h2, h3, h4]
  · intro c2
    have hlook : ctx1.lookup gname =
        .ok (.gateCtor gd.numQubits gd.globalPhase gd.instructions argNames) :=
      lookup_add_symbol_self h4
    have hcall : callConstructor
        (.gateCtor gd.numQubits gd.globalPhase gd.instructions argNames) argVals =
        .ok (.fromCircuit gd.numQubits gd.globalPhase
              (substInstrs (argNames.zip argVals) gd.instructions)) := by
      show (if argNames.length < argVals.length
            then (Except.error Err.invalidOperand : Except Err Gate)
            else .ok (.fromCircuit gd.numQubits gd.globalPhase
                   (substInstrs (argNames.zip argVals) gd.instructions))) =
          .ok (.fromCircuit gd.numQubits gd.globalPhase
                (substInstrs (argNames.zip argVals) gd.instructions))
      rw [if_neg (Nat.not_lt.mpr h6)]
    unfold _process_QuantumGate
    simp only [h5, hlook, hcall, h7, List.foldlM_nil]
    rfl

end OpenQASM

namespace OpenQASM

open OpenQASM3Translator

/-- Witness for quantum_phase_global_or_local at concrete inputs: a
phase of two with no operands only adds two to the global phase, and
the same phase on the whole register q appends exactly one phase gate
on its two qubits and keeps the global phase at zero. -/
theorem quantum_phase_global_or_local_witness :
    _process_QuantumPhase [] (.intLit 2) [] QuantumCircuit.empty wRegCtx =
      .ok (⟨0, [], [], 2⟩, wRegCtx) ∧
    _process_QuantumPhase [] (.intLit 2) [.id ("q")] QuantumCircuit.empty wRegCtx =
      .ok (⟨0, [], [.app (.fromCircuit 1 2 []) [.bit ("q") 0, .bit ("q") 1]], 0⟩, wRegCtx) :=
  ⟨(quantum_phase_global_or_local [] (.intLit 2) [] QuantumCircuit.empty wRegCtx 2 []
      rfl rfl).1 rfl,
   (quantum_phase_global_or_local [] (.intLit 2) [.id ("q")] QuantumCircuit.empty wRegCtx 2
      [[.bit ("q") 0, .bit ("q") 1]] rfl rfl).2 (.fromCircuit 1 2 []) (by decide) rfl⟩

/-- Witness for statement_dispatch_contract: an unregistered variant is
rejected with its own tag, and a registered variant is routed to its
handler. -/
theorem statement_dispatch_contract_witness :
    _process_Statement 1 (.unsupported ("BranchingStatement")) QuantumCircuit.empty
        OpenQASMContext.empty =
      .error (.unsupportedFeature ("BranchingStatement")) ∧
    _process_Statement 1 (.qubitDecl ("q") none) QuantumCircuit.empty OpenQASMContext.empty =
      _process_QubitDeclaration ("q") none QuantumCircuit.empty OpenQASMContext.empty :=
  ⟨(statement_dispatch_contract 0 (.unsupported ("BranchingStatement")) QuantumCircuit.empty
      OpenQASMContext.empty).1 (by decide),
   (statement_dispatch_contract 0 (.qubitDecl ("q") none) QuantumCircuit.empty
      OpenQASMContext.empty).2.1 ("q") none rfl⟩

/-- Witness for gate_definition_roundtrip: defining mygate with
parameter theta over qubit parameters a and b, then calling it with the
value three on the two qubits of register q, appends exactly the
substituted sub-circuit gate on those qubits. -/
theorem gate_definition_roundtrip_witness :
    _process_QuantumGate [] "mygate" [.intLit 3]
        [.index ("q") (.intLit 0), .index ("q") (.intLit 1)] QuantumCircuit.empty wCtx1 =
      .ok (⟨0, [], [.app (.fromCircuit 2 0 (substInstrs [("theta", .int 3)] wInstrs))
              [.bit ("q") 0, .bit ("q") 1]], 0⟩, wCtx1) :=
  (gate_definition_roundtrip (_process_Statement 5) "mygate" ["theta"] ["a", "b"] wBody
      [.intLit 3] [.index ("q") (.intLit 0), .index ("q") (.intLit 1)]
      QuantumCircuit.empty wRegCtx
      ⟨[("b", .defined (.int 1)), ("a", .defined (.int 0)), ("q", .defined (.reg ("q") 2))]⟩
      wGctx2 wCtx1 ⟨2, [], wInstrs, 0⟩ wGctx2
      [.int 3] [[.bit ("q") 0], [.bit ("q") 1]]
      (by decide) rfl rfl rfl rfl rfl (by decide) rfl).2.1 QuantumCircuit.empty

/-- Witness for gate_definition_scope_isolation: after defining a gate
named gg over one qubit parameter a, the parent context still resolves
the register name q as before. -/
theorem gate_definition_scope_isolation_witness :
    (⟨("gg", .defined (.gateCtor 1 0 [] [])) :: wRegCtx.symbols⟩ :
        OpenQASMContext).lookup ("q") = wRegCtx.lookup ("q") :=
  (gate_definition_scope_isolation (_process_Statement 2) "gg" [] ["a"] []
      QuantumCircuit.empty QuantumCircuit.empty wRegCtx
      ⟨("a", .defined (.int 0)) :: wRegCtx.symbols⟩
      ⟨("a", .defined (.int 0)) :: wRegCtx.symbols⟩
      ⟨("gg", .defined (.gateCtor 1 0 [] [])) :: wRegCtx.symbols⟩
      rfl rfl rfl).2 ("q") (by decide)

/-- Witness for qubit_declaration_allocates: declaring r with
designator five allocates one size-five register named r and binds r to
it. -/
theorem qubit_declaration_allocates_witness :
    _process_QubitDeclaration ("r") (some (.intLit 5)) QuantumCircuit.empty
        OpenQASMContext.empty =
      .ok (⟨5, [("r", 5)], [], 0⟩, ⟨[("r", .defined (.reg ("r") 5))]⟩) ∧
    (⟨[("r", .defined (.reg ("r") 5))]⟩ : OpenQASMContext).lookup ("r") = .ok (.reg ("r") 5) :=
  (qubit_declaration_allocates ("r") QuantumCircuit.empty OpenQASMContext.empty).2
    (.intLit 5) 5 ⟨[("r", .defined (.reg ("r") 5))]⟩ rfl (by decide) rfl

/-- Witness for translate_fail_fast: a program whose second statement
is an unregistered variant fails with that variant name and the third
statement is never reached. -/
theorem translate_fail_fast_witness :
    OpenQASM3Translator.translate 1
        ([.qubitDecl ("q") none] ++ (.unsupported ("BranchingStatement")) ::
          [.qubitDecl ("r") none]) =
      .error (.unsupportedFeature ("BranchingStatement")) :=
  (translate_fail_fast 1 [.qubitDecl ("q") none] (.unsupported ("BranchingStatement"))
      [.qubitDecl ("r") none] QuantumCircuit.empty ⟨1, [("q", 1)], [], 0⟩
      OpenQASMContext.empty ⟨[("q", .defined (.reg ("q") 1))]⟩
      (.unsupportedFeature ("BranchingStatement")) rfl rfl).2 rfl rfl

/-- Witness for classical_matches_constant_declaration: a classical
declaration of k with initializer seven binds k to seven whatever the
type annotation says. -/
theorem classical_matches_constant_declaration_witness :
    _process_ClassicalDeclaration ("int") "k" (some (.intLit 7)) QuantumCircuit.empty
        OpenQASMContext.empty =
      .ok (QuantumCircuit.empty, ⟨[("k", .defined (.int 7))]⟩) :=
  (classical_matches_constant_declaration ("int") "k" (some (.intLit 7)) QuantumCircuit.empty
      OpenQASMContext.empty).2.2 (.intLit 7) (.int 7) ⟨[("k", .defined (.int 7))]⟩
    rfl rfl rfl

/-- Witness for gate_definition_binding_atomic: a definition whose body
holds an unregistered variant fails with that variant name and adds no
binding. -/
theorem gate_definition_binding_atomic_witness :
    _process_QuantumGateDefinition (_process_Statement 1) "gg" [] ["a"]
        [.unsupported ("WhileLoop")] QuantumCircuit.empty OpenQASMContext.empty =
      .error (.unsupportedFeature ("WhileLoop")) :=
  (gate_definition_binding_atomic (_process_Statement 1) "gg" [] ["a"]
      [.unsupported ("WhileLoop")] QuantumCircuit.empty OpenQASMContext.empty
      ⟨[("a", .defined (.int 0))]⟩ ⟨[("a", .defined (.int 0))]⟩
      rfl rfl).1 (.unsupportedFeature ("WhileLoop")) rfl

end OpenQASM

namespace OpenQASM

open OpenQASM3Translator

/-- Witness for supported_features_exactly_dispatchable: the ForInLoop
tag has no processing function, so dispatch rejects it with the
unsupported-feature error carrying that tag. -/
theorem supported_features_exactly_dispatchable_witness :
    _process_Statement 1 (.unsupported ("ForInLoop")) QuantumCircuit.empty
        OpenQASMContext.empty = .error (.unsupportedFeature ("ForInLoop")) :=
  supported_features_exactly_dispatchable.2 (.unsupported ("ForInLoop")) 0
    QuantumCircuit.empty OpenQASMContext.empty (by decide)

end OpenQASM
